import Mathlib

/-!
Verification of `src/fprime/common/models/serialize/numerical_types.py`.

Shallow embedding notes:
* Python's dynamically typed candidate values are modelled by `PyValue`;
  `isinstance(val, int)` / `isinstance(val, float)` become constructor tests
  and `type(val)` becomes `PyValue.type`.
* The ten concrete classes become the enumeration `ConcreteType`; the class
  identifier of each is `className`.
* `raise TypeMismatchException(a, b)` / `raise TypeRangeException(v)` become
  the `ValidateResult` constructors; a `validate` body that falls off the end
  returns `ValidateResult.ok`; an uncaught `AttributeError` (a missing
  attribute lookup) is the `attributeError` constructor, carrying the name of
  the missing attribute.
* The source's name-reflection code is broken in two places, and the
  embedding models the crashes rather than the apparent intent:
  - line 23, `match = BITS_RE.match(cls)`, passes the class object itself
    (not a string) to `re.Pattern.match`, which accepts only str/bytes and
    raises `TypeError` for every class, so `__get_bits` never reaches its
    `assert` (line 24) nor its `return` (line 25);
  - line 41, `max_val = 1 << self.__get_integer_bits()`, name-mangles inside
    `class IntegerType` to `self._IntegerType__get_integer_bits`, an
    attribute defined nowhere (the only similar method mangles to
    `_NumericalType__get_bits`; the external `ValueType` base provides only
    construction, storage and equality), so every integral candidate raises
    an uncaught `AttributeError` before any bound is computed, and lines
    42-46 (the signedness adjustment via `self.startswith("I")` and the
    range check) are unreachable.
* Python floats are modelled by `PyFloat` (a finite value, infinities or
  NaN); the validators never inspect the payload, only the runtime kind.
-/

/-- Runtime kinds of Python values relevant to this module
(`type(val)` as used in `TypeMismatchException(int, type(val))`). -/
inductive PyType where
  | int
  | float
  | str
  | noneType
deriving DecidableEq, Repr

/-- A Python float: a finite value (any finite IEEE double is a rational),
an infinity, or NaN.  The validators in this module never inspect the
payload, only the runtime kind. -/
inductive PyFloat where
  | finite (q : ℚ)
  | inf
  | negInf
  | nan
deriving DecidableEq, Repr

/-- A Python candidate value handed to `validate`. -/
inductive PyValue where
  | int (v : ℤ)
  | float (x : PyFloat)
  | str (s : String)
  | none
deriving DecidableEq, Repr

/-- `type(val)`: the runtime kind of a candidate. -/
def PyValue.type : PyValue → PyType
  | PyValue.int _ => PyType.int
  | PyValue.float _ => PyType.float
  | PyValue.str _ => PyType.str
  | PyValue.none => PyType.noneType

/-- Outcome of a `validate` call: normal return, one of the two exceptions
raised deliberately by the source (`TypeMismatchException(expected, actual)`
on lines 39/55 and `TypeRangeException(val)` on line 46), or an uncaught
`AttributeError` from a lookup of a nonexistent attribute, carrying the
missing attribute's (name-mangled) name. -/
inductive ValidateResult where
  | ok
  | typeMismatch (expected : PyType) (actual : PyType)
  | typeRange (val : PyValue)
  | attributeError (attr : String)
deriving DecidableEq, Repr

/-- The ten concrete leaf classes of `numerical_types.py`. -/
inductive ConcreteType where
  | I8Type
  | I16Type
  | I32Type
  | I64Type
  | U8Type
  | U16Type
  | U32Type
  | U64Type
  | F32Type
  | F64Type
deriving DecidableEq, Repr

/-- The class identifier of each concrete class. -/
def className : ConcreteType → String
  | ConcreteType.I8Type => "I8Type"
  | ConcreteType.I16Type => "I16Type"
  | ConcreteType.I32Type => "I32Type"
  | ConcreteType.I64Type => "I64Type"
  | ConcreteType.U8Type => "U8Type"
  | ConcreteType.U16Type => "U16Type"
  | ConcreteType.U32Type => "U32Type"
  | ConcreteType.U64Type => "U64Type"
  | ConcreteType.F32Type => "F32Type"
  | ConcreteType.F64Type => "F64Type"

/-- The regular expression `BITS_RE = re.compile(r"[IUF](\d\d?)")` applied
with `.match` to a STRING (anchored at the start, greedy on the one-or-two
digit group), followed by `int(match.group(1))`: `some n` when the string
matches, `none` when it does not.  The source never actually applies
`BITS_RE` to a string (line 23 passes the class object); this function
captures what the regex recognizes, for stating how far the code diverges
from it. -/
def bitsReMatch (s : String) : Option ℕ :=
  match s.data with
  | m :: d1 :: rest =>
    if (m == 'I' || m == 'U' || m == 'F') && d1.isDigit then
      match rest with
      | d2 :: _ =>
        if d2.isDigit then
          some (10 * (d1.toNat - '0'.toNat) + (d2.toNat - '0'.toNat))
        else
          some (d1.toNat - '0'.toNat)
      | [] => some (d1.toNat - '0'.toNat)
    else
      Option.none
  | _ => Option.none

/-- Possible outcomes of `NumericalType.__get_bits` (source lines 20-25):
the parsed bit count (`return` on line 25), the `assert` failure of line 24,
or an uncaught `TypeError` from `re.Pattern.match`. -/
inductive GetBitsResult where
  | ok (bits : ℕ)
  | assertionError (msg : String)
  | typeError (msg : String)
deriving DecidableEq, Repr

/-- `NumericalType.__get_bits` (source lines 20-25).  Its first statement,
`match = BITS_RE.match(cls)`, passes the class object itself — `cls` of a
classmethod — to `re.Pattern.match`, which accepts only str/bytes-like
arguments and raises `TypeError: expected string or bytes-like object` for
every class.  The `assert` on line 24 and the `return` on line 25 are
therefore never reached, for any class whatsoever. -/
def getBits (_c : ConcreteType) : GetBitsResult :=
  GetBitsResult.typeError "expected string or bytes-like object"

/-- `NumericalType.getSize` (source lines 27-30): `int(cls.__get_bits()/8)`.
An exception raised by `__get_bits` propagates uncaught; only an `ok` bit
count reaches the division (exact for multiples of 8, so `int(...)` agrees
with integer division). -/
def getSize (c : ConcreteType) : GetBitsResult :=
  match getBits c with
  | GetBitsResult.ok n => GetBitsResult.ok (n / 8)
  | e => e

/-- `IntegerType.validate` (source lines 36-46).  The
`isinstance(val, int)` check on lines 38-39 runs first and raises
`TypeMismatchException(int, type(val))` for every non-`int` candidate.  For
an `int` candidate, line 40 binds the local `min_val` (no observable
effect) and line 41 then evaluates `self.__get_integer_bits()`, which
name-mangles to the nonexistent attribute `_IntegerType__get_integer_bits`
and raises an uncaught `AttributeError`; the signedness adjustment and the
range check of lines 42-46 are unreachable. -/
def IntegerType.validate (_c : ConcreteType) (val : PyValue) : ValidateResult :=
  match val with
  | PyValue.int _ => ValidateResult.attributeError "_IntegerType__get_integer_bits"
  | other => ValidateResult.typeMismatch PyType.int other.type

/-- `FloatType.validate` (source lines 52-55): reject non-`float`
candidates with `TypeMismatchException(float, type(val))`; otherwise the
body falls through and the value is accepted. -/
def FloatType.validate (val : PyValue) : ValidateResult :=
  match val with
  | PyValue.float _ => ValidateResult.ok
  | other => ValidateResult.typeMismatch PyType.float other.type

/-- Dispatch of `validate` along the class hierarchy: `F32Type` is the only
concrete class deriving `FloatType`; all others, including `F64Type`
(source line 125: `class F64Type(IntegerType)`), inherit
`IntegerType.validate`. -/
def ConcreteType.validate (c : ConcreteType) (val : PyValue) : ValidateResult :=
  match c with
  | ConcreteType.F32Type => FloatType.validate val
  | c => IntegerType.validate c val

/-- `get_serialize_format` of each concrete class: the exact struct format
string returned by the source. -/
def get_serialize_format : ConcreteType → String
  | ConcreteType.I8Type => "b"
  | ConcreteType.I16Type => ">h"
  | ConcreteType.I32Type => ">i"
  | ConcreteType.I64Type => ">q"
  | ConcreteType.U8Type => "B"
  | ConcreteType.U16Type => ">H"
  | ConcreteType.U32Type => ">I"
  | ConcreteType.U64Type => ">Q"
  | ConcreteType.F32Type => ">f"
  | ConcreteType.F64Type => ">d"

/-- A value-type instance: its concrete class and the raw storage slot of
the (external) `ValueType` base.  `validate` takes `self`, so calls are
modelled with explicit state passing. -/
structure Instance where
  ty : ConcreteType
  stored : Option PyValue
deriving DecidableEq, Repr

/-- One `validate` call on an instance, with explicit state passing.  The
source bodies (lines 36-46 and 52-55) bind only the locals `min_val` and
`max_val`, never assign to any attribute of `self` and never rebind `val`,
so the instance state passes through unchanged whatever the outcome. -/
def Instance.validateCall (inst : Instance) (val : PyValue) : Instance × ValidateResult :=
  (inst, ConcreteType.validate inst.ty val)

/-! Specification-side tables (from the spec's words, stated independently
of the source embedding above, for comparison). -/

/-- The declared bit-width of each concrete type (spec table 4.4). -/
def specBits : ConcreteType → ℕ
  | ConcreteType.I8Type => 8
  | ConcreteType.I16Type => 16
  | ConcreteType.I32Type => 32
  | ConcreteType.I64Type => 64
  | ConcreteType.U8Type => 8
  | ConcreteType.U16Type => 16
  | ConcreteType.U32Type => 32
  | ConcreteType.U64Type => 64
  | ConcreteType.F32Type => 32
  | ConcreteType.F64Type => 64

/-- The declared byte width of each concrete type (spec table 4.4). -/
def specBytes : ConcreteType → ℕ
  | ConcreteType.I8Type => 1
  | ConcreteType.I16Type => 2
  | ConcreteType.I32Type => 4
  | ConcreteType.I64Type => 8
  | ConcreteType.U8Type => 1
  | ConcreteType.U16Type => 2
  | ConcreteType.U32Type => 4
  | ConcreteType.U64Type => 8
  | ConcreteType.F32Type => 4
  | ConcreteType.F64Type => 8

/-- The eight integer types of the spec. -/
def integerTypes : List ConcreteType :=
  [ConcreteType.I8Type, ConcreteType.I16Type, ConcreteType.I32Type, ConcreteType.I64Type,
   ConcreteType.U8Type, ConcreteType.U16Type, ConcreteType.U32Type, ConcreteType.U64Type]

/-- Byte order declared by a wire-format string. -/
inductive ByteOrder where
  | bigEndian
  | native
deriving DecidableEq, Repr

/-- Standard size of a struct format character, per the Python `struct`
module documentation (only the characters this module uses). -/
def structCharSize (c : Char) : Option ℕ :=
  if c == 'b' || c == 'B' then some 1
  else if c == 'h' || c == 'H' then some 2
  else if c == 'i' || c == 'I' || c == 'f' then some 4
  else if c == 'q' || c == 'Q' || c == 'd' then some 8
  else Option.none

/-- Decode a struct format string of this module: an optional leading `>`
(big-endian marker) followed by a single size character; a bare character
is native single-byte layout. -/
def decodeFormat (s : String) : Option (ByteOrder × ℕ) :=
  match s.data with
  | ['>', c] => (structCharSize c).map (fun n => (ByteOrder.bigEndian, n))
  | [c] => (structCharSize c).map (fun n => (ByteOrder.native, n))
  | _ => Option.none

/-! Claim theorems. -/

/-- C1 (code bug evaluation): for I8 the claim's in-range values -128 and
127 are not accepted, and no integral candidate — in particular neither
-129 nor 128 — is rejected with `TypeRange`: every integral candidate
instead dies on the uncaught `AttributeError` of source line 41
(`self.__get_integer_bits()` does not exist). -/
theorem i8_validate_attributeError :
    ConcreteType.validate ConcreteType.I8Type (PyValue.int (-128)) =
      ValidateResult.attributeError "_IntegerType__get_integer_bits" ∧
    ConcreteType.validate ConcreteType.I8Type (PyValue.int 127) =
      ValidateResult.attributeError "_IntegerType__get_integer_bits" ∧
    (∀ v : ℤ, ConcreteType.validate ConcreteType.I8Type (PyValue.int v) ≠
      ValidateResult.ok) ∧
    (∀ v : ℤ, ∀ w, ConcreteType.validate ConcreteType.I8Type (PyValue.int v) ≠
      ValidateResult.typeRange w) := by
  refine ⟨rfl, rfl, ?_, ?_⟩
  · intro v h
    exact ValidateResult.noConfusion h
  · intro v w h
    exact ValidateResult.noConfusion h

/-- C2 (code bug evaluation): for U8 the claim's in-range values 0 and 255
are not accepted, and no integral candidate — in particular neither -1 nor
256 — is rejected with `TypeRange`: every integral candidate instead dies
on the uncaught `AttributeError` of source line 41. -/
theorem u8_validate_attributeError :
    ConcreteType.validate ConcreteType.U8Type (PyValue.int 0) =
      ValidateResult.attributeError "_IntegerType__get_integer_bits" ∧
    ConcreteType.validate ConcreteType.U8Type (PyValue.int 255) =
      ValidateResult.attributeError "_IntegerType__get_integer_bits" ∧
    (∀ v : ℤ, ConcreteType.validate ConcreteType.U8Type (PyValue.int v) ≠
      ValidateResult.ok) ∧
    (∀ v : ℤ, ∀ w, ConcreteType.validate ConcreteType.U8Type (PyValue.int v) ≠
      ValidateResult.typeRange w) := by
  refine ⟨rfl, rfl, ?_, ?_⟩
  · intro v h
    exact ValidateResult.noConfusion h
  · intro v w h
    exact ValidateResult.noConfusion h

/-- C4 (code bug evaluation): for every one of the ten concrete types,
`getSize` propagates the `TypeError` raised by `BITS_RE.match(cls)` on
source line 23 (the class object, not a string, is passed to `re.match`)
and never returns a byte count, let alone bit-width/8. -/
theorem getSize_raises_typeError :
    ∀ c : ConcreteType,
      getSize c = GetBitsResult.typeError "expected string or bytes-like object" ∧
      ∀ n, getSize c ≠ GetBitsResult.ok n := by
  intro c
  refine ⟨rfl, ?_⟩
  intro n h
  exact GetBitsResult.noConfusion h

/-- C5: the wire format of every concrete type matches the spec table:
multi-byte types declare big-endian byte order with the struct character of
their byte width, and the single-byte types I8 and U8 are a bare one-byte
format character with no byte-order marker. -/
theorem wire_format_matches_table :
    ∀ c : ConcreteType,
      decodeFormat (get_serialize_format c) =
        some (if specBytes c = 1 then ByteOrder.native else ByteOrder.bigEndian,
          specBytes c) := by
  intro c
  cases c <;> decide

/-- C6: for every integer type and every candidate of non-integer runtime
kind, `validate` rejects it with `TypeMismatch` carrying `int` as the
expected kind, and never with `TypeRange`. -/
theorem integer_validate_mismatch (c : ConcreteType) (val : PyValue)
    (hc : c ∈ integerTypes) (hv : val.type ≠ PyType.int) :
    ConcreteType.validate c val = ValidateResult.typeMismatch PyType.int val.type ∧
    ∀ w, ConcreteType.validate c val ≠ ValidateResult.typeRange w := by
  have key : ConcreteType.validate c val = IntegerType.validate c val := by
    have h8 : c ≠ ConcreteType.F32Type := by
      intro hcc
      rw [hcc] at hc
      simp [integerTypes] at hc
    cases c <;> first | rfl | exact absurd rfl h8
  rw [key]
  cases val
  · exact absurd rfl hv
  all_goals exact ⟨rfl, fun w hw => ValidateResult.noConfusion hw⟩

/-- C6 witness: U8 with a text candidate. -/
theorem integer_validate_mismatch_witness :
    ConcreteType.U8Type ∈ integerTypes ∧
    (PyValue.str "abc").type ≠ PyType.int ∧
    (ConcreteType.validate ConcreteType.U8Type (PyValue.str "abc") =
      ValidateResult.typeMismatch PyType.int (PyValue.str "abc").type ∧
    ∀ w, ConcreteType.validate ConcreteType.U8Type (PyValue.str "abc") ≠
      ValidateResult.typeRange w) :=
  ⟨by decide, by decide,
    integer_validate_mismatch ConcreteType.U8Type (PyValue.str "abc") (by decide) (by decide)⟩

/-- C7: `validate` is idempotent and transformation-free: when a call on an
instance accepts a value, the instance state is unchanged and a second call
on the resulting state with the same value yields the same accepting result
and again the same state. -/
theorem validate_idempotent (inst : Instance) (val : PyValue)
    (h : (inst.validateCall val).2 = ValidateResult.ok) :
    (inst.validateCall val).1 = inst ∧
    (inst.validateCall val).1.validateCall val = (inst, ValidateResult.ok) := by
  refine ⟨rfl, ?_⟩
  show inst.validateCall val = (inst, ValidateResult.ok)
  unfold Instance.validateCall at h ⊢
  simp only at h
  rw [h]

/-- C7 witness: an F32 instance accepting the float 3.14 twice (the
only accepting path of the code is `FloatType.validate` on a float). -/
theorem validate_idempotent_witness :
    ((Instance.mk ConcreteType.F32Type Option.none).validateCall
        (PyValue.float (PyFloat.finite (157 / 50)))).2 = ValidateResult.ok ∧
    (((Instance.mk ConcreteType.F32Type Option.none).validateCall
        (PyValue.float (PyFloat.finite (157 / 50)))).1 =
      Instance.mk ConcreteType.F32Type Option.none ∧
    ((Instance.mk ConcreteType.F32Type Option.none).validateCall
        (PyValue.float (PyFloat.finite (157 / 50)))).1.validateCall
        (PyValue.float (PyFloat.finite (157 / 50))) =
      (Instance.mk ConcreteType.F32Type Option.none, ValidateResult.ok)) :=
  ⟨rfl,
    validate_idempotent (Instance.mk ConcreteType.F32Type Option.none)
      (PyValue.float (PyFloat.finite (157 / 50))) rfl⟩

/-- C8 (code bug evaluation): every one of the ten concrete class
identifiers encodes a category marker followed by its bit count, so
`BITS_RE` recognizes all of them; yet `__get_bits` raises `TypeError` —
never the `assert`'s `AssertionError` — for every class, because line 23
passes the class object rather than its identifier to `re.Pattern.match`. -/
theorem getBits_typeError_despite_recognizable :
    (∀ c : ConcreteType, bitsReMatch (className c) = some (specBits c)) ∧
    (∀ c : ConcreteType,
      getBits c = GetBitsResult.typeError "expected string or bytes-like object") ∧
    (∀ c : ConcreteType, ∀ msg, getBits c ≠ GetBitsResult.assertionError msg) := by
  refine ⟨?_, fun c => rfl, ?_⟩
  · intro c
    cases c <;> decide
  · intro c msg h
    exact GetBitsResult.noConfusion h

/-- C9 (code bug evaluation): a `validate` call does not always end in one
of acceptance, `TypeMismatch` or `TypeRange`: an integer type given an
integral candidate produces a fourth outcome, the uncaught
`AttributeError` of source line 41. -/
theorem validate_fourth_outcome :
    ConcreteType.validate ConcreteType.U8Type (PyValue.int 1) =
      ValidateResult.attributeError "_IntegerType__get_integer_bits" ∧
    ConcreteType.validate ConcreteType.U8Type (PyValue.int 1) ≠ ValidateResult.ok ∧
    (∀ e a, ConcreteType.validate ConcreteType.U8Type (PyValue.int 1) ≠
      ValidateResult.typeMismatch e a) ∧
    (∀ w, ConcreteType.validate ConcreteType.U8Type (PyValue.int 1) ≠
      ValidateResult.typeRange w) := by
  refine ⟨rfl, ?_, ?_, ?_⟩
  · intro h
    exact ValidateResult.noConfusion h
  · intro e a h
    exact ValidateResult.noConfusion h
  · intro w h
    exact ValidateResult.noConfusion h

/-- C10: because `F64Type` subclasses `IntegerType`, the inherited
`validate` applies the integer kind check, so every floating-point
candidate given to F64 (in particular 3.14) is rejected with
`TypeMismatch`, while F64's serialize format is still the 8-byte big-endian
float format `">d"`. -/
theorem f64_inherits_integer_validate :
    (∀ x : PyFloat,
      ConcreteType.validate ConcreteType.F64Type (PyValue.float x) =
        ValidateResult.typeMismatch PyType.int PyType.float) ∧
    ConcreteType.validate ConcreteType.F64Type (PyValue.float (PyFloat.finite (157 / 50))) ≠
      ValidateResult.ok ∧
    get_serialize_format ConcreteType.F64Type = ">d" :=
  ⟨fun _ => rfl, by decide, rfl⟩

/-- C3 (code bug evaluation): F32 accepts the float 3.14 but F64 rejects it
with `TypeMismatch(int, float)`, so the two float types do not have the
same validation behavior, contrary to the spec's stated intent. -/
theorem f32_f64_validate_differ :
    ConcreteType.validate ConcreteType.F32Type (PyValue.float (PyFloat.finite (157 / 50))) =
      ValidateResult.ok ∧
    ConcreteType.validate ConcreteType.F64Type (PyValue.float (PyFloat.finite (157 / 50))) =
      ValidateResult.typeMismatch PyType.int PyType.float ∧
    ConcreteType.validate ConcreteType.F64Type (PyValue.float (PyFloat.finite (157 / 50))) ≠
      ConcreteType.validate ConcreteType.F32Type (PyValue.float (PyFloat.finite (157 / 50))) :=
  ⟨rfl, rfl, by decide⟩
